import Mathlib

/-!
Shallow embedding of the LAN Network Health API (src/main.py): a FastAPI
service with a shared-key authentication dependency, a pydantic payload
model, an in-memory latest-report store, and a staleness check on reads.

Request handling is modelled per the framework semantics: the `require_key`
dependency is solved before the endpoint body is validated, so a present
but wrong key yields 401 even for an invalid body, while a missing
required header is a request-validation failure (422). Timestamps are
rationals; Python `int()` truncation is `pyInt`.
-/

namespace NetworkMonitor

/-- JSON values appearing in request bodies (numbers as rationals). -/
inductive Json where
  | null : Json
  | bool : Bool → Json
  | str : String → Json
  | num : ℚ → Json
  | arr : List Json → Json
  | obj : List (String × Json) → Json

/-- Environment configuration read at process start (src/main.py lines 12-13).
`STALE_SECONDS` is the integer threshold `int(os.getenv("STALE_SECONDS",
"300"))`, represented directly in the rational domain in which the age
comparison happens. -/
structure Config where
  MAKE_API_KEY : String
  STALE_SECONDS : ℚ

/-- The default environment values from src/main.py. -/
def defaultConfig : Config := ⟨"make_network_health", 300⟩

/-- The validated pydantic model `HealthPayload` (src/main.py lines 26-35):
`device_id` required, all other fields optional (`none` = Python `None`). -/
structure HealthPayload where
  device_id : String
  cpu : Option ℚ
  ram : Option ℚ
  temperature : Option ℚ
  status : Option String
  health_score : Option ℤ
  extra : Option (List (String × Json))

/-- A raw JSON request body for POST /device/report, field by field:
`none` means the key is absent from the submitted object, `some .null`
means the key is present with value `null`. -/
structure RawPayload where
  device_id : Option Json
  cpu : Option Json
  ram : Option Json
  temperature : Option Json
  status : Option Json
  health_score : Option Json
  extra : Option Json

/-- Validation of a required `str` field with a minimum length
(`device_id: str = Field(..., min_length=1)`); pydantic v2 lax mode does
not coerce numbers to strings. -/
def parseRequiredStr (minLen : ℕ) : Option Json → Except Unit String
  | some (.str s) => if minLen ≤ s.length then .ok s else .error ()
  | _ => .error ()

/-- Leading decimal digits of a character list, and the remainder. -/
def takeDigits : List Char → List Char × List Char
  | [] => ([], [])
  | c :: cs =>
      if c.isDigit then
        let p := takeDigits cs
        (c :: p.1, p.2)
      else ([], c :: cs)

/-- Value of a list of decimal digit characters. -/
def digitsToNat (ds : List Char) : ℕ :=
  ds.foldl (fun a c => 10 * a + (c.toNat - 48)) 0

/-- An unsigned decimal numeral, with an optional fractional part. -/
def parseUnsignedDec (cs : List Char) : Option ℚ :=
  let p := takeDigits cs
  match p.2 with
  | [] => if p.1.isEmpty then none else some ((digitsToNat p.1 : ℕ) : ℚ)
  | '.' :: rest2 =>
      let f := takeDigits rest2
      if f.2.isEmpty && !(p.1.isEmpty && f.1.isEmpty) then
        some ((digitsToNat (p.1 ++ f.1) : ℕ) / (10 : ℚ) ^ f.1.length)
      else none
  | _ => none

/-- Pydantic v2 lax-mode string-to-number coercion, restricted to the
plain decimal fragment: an optional sign followed by a decimal numeral
with an optional fractional part. Exponents, infinities, NaN, underscores
and surrounding whitespace are not modelled. -/
def strToNumber (s : String) : Option ℚ :=
  match s.data with
  | '+' :: cs => parseUnsignedDec cs
  | '-' :: cs => (parseUnsignedDec cs).map (fun q => -q)
  | cs => parseUnsignedDec cs

/-- Validation of `Optional[float] = Field(default=None, ge=lo, le=hi)`:
absent or null gives `None`; a number — or, per lax coercion, a numeric
string — must lie in the closed range after coercion. -/
def parseOptFloatRange (lo hi : ℚ) : Option Json → Except Unit (Option ℚ)
  | none => .ok none
  | some .null => .ok none
  | some (.num q) => if lo ≤ q ∧ q ≤ hi then .ok (some q) else .error ()
  | some (.str s) =>
      match strToNumber s with
      | some q => if lo ≤ q ∧ q ≤ hi then .ok (some q) else .error ()
      | none => .error ()
  | some _ => .error ()

/-- Validation of an unconstrained `Optional[float] = None` (temperature);
numeric strings are accepted per lax coercion. -/
def parseOptFloat : Option Json → Except Unit (Option ℚ)
  | none => .ok none
  | some .null => .ok none
  | some (.num q) => .ok (some q)
  | some (.str s) =>
      match strToNumber s with
      | some q => .ok (some q)
      | none => .error ()
  | some _ => .error ()

/-- Validation of `Optional[str] = dflt` (status): an absent key takes the
schema-level default, an explicit null stays `None`. -/
def parseOptStrDefault (dflt : String) : Option Json → Except Unit (Option String)
  | none => .ok (some dflt)
  | some .null => .ok none
  | some (.str s) => .ok (some s)
  | some _ => .error ()

/-- Validation of `Optional[int] = Field(default=None, ge=lo, le=hi)`
(health_score): the number — or, per lax coercion, a numeric string —
must be integral and in range. -/
def parseOptIntRange (lo hi : ℤ) : Option Json → Except Unit (Option ℤ)
  | none => .ok none
  | some .null => .ok none
  | some (.num q) =>
      if q.den = 1 ∧ lo ≤ q.num ∧ q.num ≤ hi then .ok (some q.num) else .error ()
  | some (.str s) =>
      match strToNumber s with
      | some q =>
          if q.den = 1 ∧ lo ≤ q.num ∧ q.num ≤ hi then .ok (some q.num)
          else .error ()
      | none => .error ()
  | some _ => .error ()

/-- Validation of `Optional[Dict[str, Any]] = None` (extra). -/
def parseOptDict : Option Json → Except Unit (Option (List (String × Json)))
  | none => .ok none
  | some .null => .ok none
  | some (.obj kvs) => .ok (some kvs)
  | some _ => .error ()

/-- Pydantic validation of the request body against `HealthPayload`
(src/main.py lines 26-35). -/
def validateHealthPayload (raw : RawPayload) : Except Unit HealthPayload := do
  let d ← parseRequiredStr 1 raw.device_id
  let c ← parseOptFloatRange 0 100 raw.cpu
  let r ← parseOptFloatRange 0 100 raw.ram
  let t ← parseOptFloat raw.temperature
  let st ← parseOptStrDefault "OK" raw.status
  let hs ← parseOptIntRange 0 100 raw.health_score
  let ex ← parseOptDict raw.extra
  .ok ⟨d, c, r, t, st, hs, ex⟩

/-- The stored field mapping (the dict produced by
`payload.model_dump(exclude_none=True)` and then mutated by `setdefault`):
a key is in the dict exactly when its field here is not `none`
(`device_id` is always present). -/
structure StoredData where
  device_id : String
  cpu : Option ℚ
  ram : Option ℚ
  temperature : Option ℚ
  status : Option String
  health_score : Option ℤ
  extra : Option (List (String × Json))

/-- `payload.model_dump(exclude_none=True)` (src/main.py line 46): every
field whose value is `None` is omitted from the resulting dict, which the
`Option` representation of `StoredData` records directly. -/
def model_dump_exclude_none (p : HealthPayload) : StoredData :=
  ⟨p.device_id, p.cpu, p.ram, p.temperature, p.status, p.health_score, p.extra⟩

/-- `data.setdefault("status", "UNKNOWN")` (src/main.py line 49): fills the
status key only when it is absent from the dict. -/
def setdefault_status (d : StoredData) : StoredData :=
  { d with status := match d.status with | none => some "UNKNOWN" | some s => some s }

/-- One value of the `LATEST` store: `{"data": ..., "ts": ...}`
(src/main.py lines 51-54). -/
structure Entry where
  data : StoredData
  ts : ℚ

/-- The in-memory store `LATEST: Dict[str, Dict[str, Any]]`, as a map from
device id to its entry (src/main.py line 16). -/
def Store := String → Option Entry

/-- The store at process start: empty. -/
def emptyStore : Store := fun _ => none

/-- Error responses the service produces. -/
inductive Err where
  | unauthorized : String → Err
  | validationErr : Err
  | notFound : String → Err
  | serviceUnavailable : String → Err
deriving DecidableEq

/-- HTTP status code for each error. -/
def Err.statusCode : Err → ℕ
  | .unauthorized _ => 401
  | .validationErr => 422
  | .notFound _ => 404
  | .serviceUnavailable _ => 503

/-- The `require_key` dependency (src/main.py lines 20-22) together with
the framework's handling of the required header `x_api_key: str =
Header(...)`: a missing header is a request-validation failure (422), a
present header with the wrong value raises HTTPException 401. -/
def require_key (cfg : Config) (x_api_key : Option String) : Except Err Unit :=
  match x_api_key with
  | none => .error .validationErr
  | some v =>
      if v = cfg.MAKE_API_KEY then .ok () else .error (.unauthorized "Invalid API key")

/-- The acknowledgment body of POST /device/report. -/
structure Ack where
  ok : Bool
  stored_for : String
deriving DecidableEq

/-- POST /device/report (src/main.py lines 44-56): the `require_key`
dependency runs first; then the body is validated against `HealthPayload`;
on success the record is dumped without `None` fields, status is
defaulted, and the entry overwrites `LATEST[payload.device_id]` with the
current timestamp `now`. -/
def report_health (cfg : Config) (x_api_key : Option String) (raw : RawPayload)
    (now : ℚ) (s : Store) : Except Err Ack × Store :=
  match require_key cfg x_api_key with
  | .error e => (.error e, s)
  | .ok _ =>
    match validateHealthPayload raw with
    | .error _ => (.error .validationErr, s)
    | .ok payload =>
      let data := setdefault_status (model_dump_exclude_none payload)
      (.ok ⟨true, payload.device_id⟩,
       fun id => if id = payload.device_id then some ⟨data, now⟩ else s id)

/-- Python `int()` applied to a rational: truncation toward zero. -/
def pyInt (q : ℚ) : ℤ := if 0 ≤ q then ⌊q⌋ else ⌈q⌉

/-- The detail message of the 503 response:
`f"Device data is stale (\x7bint(age)\x7ds old)"` (src/main.py line 69). -/
def staleDetail (n : ℤ) : String :=
  "Device data is stale (" ++ toString n ++ "s old)"

/-- GET /device/health (src/main.py lines 59-72): after the key check,
look up the device; missing entry gives 404; an entry older than
`STALE_SECONDS` gives 503 with the truncated age in the message;
otherwise the stored field mapping is returned verbatim. -/
def get_health (cfg : Config) (x_api_key : Option String) (device_id : String)
    (now : ℚ) (s : Store) : Except Err StoredData × Store :=
  match require_key cfg x_api_key with
  | .error e => (.error e, s)
  | .ok _ =>
    match s device_id with
    | none => (.error (.notFound "No data yet for this device_id"), s)
    | some item =>
      let age := now - item.ts
      if age > cfg.STALE_SECONDS then
        (.error (.serviceUnavailable (staleDetail (pyInt age))), s)
      else
        (.ok item.data, s)

/-- GET /devices/health (src/main.py lines 75-77): after the key check,
return every entry's field mapping keyed by device id, with no staleness
check. -/
def all_health (cfg : Config) (x_api_key : Option String) (s : Store) :
    Except Err (String → Option StoredData) × Store :=
  match require_key cfg x_api_key with
  | .error e => (.error e, s)
  | .ok _ => (.ok (fun k => (s k).map Entry.data), s)

/-- GET / (src/main.py lines 39-41): the liveness probe, behind the same
key check. -/
def root (cfg : Config) (x_api_key : Option String) (s : Store) :
    Except Err String × Store :=
  match require_key cfg x_api_key with
  | .error e => (.error e, s)
  | .ok _ => (.ok "API is running", s)

/-! Concrete payloads and stores used to exercise the theorems. -/

/-- A payload with cpu and ram supplied, everything else (status included)
omitted. -/
def rawCpu : RawPayload :=
  ⟨some (.str "rpi-1"), some (.num 42), some (.num 60), none, none, none, none⟩

/-- A payload with only device_id; every optional key absent. -/
def rawNoStatus : RawPayload :=
  ⟨some (.str "rpi-1"), none, none, none, none, none, none⟩

/-- A payload supplying cpu together with an explicit `"status": null`. -/
def rawStatusNull : RawPayload :=
  ⟨some (.str "a"), some (.num 50), none, none, some .null, none, none⟩

/-- A payload with the out-of-range value cpu = 150. -/
def rawBadCpu : RawPayload :=
  ⟨some (.str "rpi-1"), some (.num 150), none, none, none, none, none⟩

/-- A payload supplying cpu as the JSON string "42" (exercising the
lax-mode numeric-string coercion). -/
def rawStrCpu : RawPayload :=
  ⟨some (.str "rpi-1"), some (.str "42"), none, none, none, none, none⟩

/-- A store holding one entry for device "rpi-1" received at time 0. -/
def entryEx : Entry := ⟨⟨"rpi-1", none, none, none, some "OK", none, none⟩, 0⟩

/-- The singleton store used by concrete instantiations. -/
def storeEx : Store := fun id => if id = "rpi-1" then some entryEx else none

/-! Inversion lemmas for the pydantic field validators. -/

lemma except_bind_ok {ε α β : Type} (x : Except ε α) (f : α → Except ε β) (b : β) :
    (x >>= f) = .ok b ↔ ∃ a, x = .ok a ∧ f a = .ok b := by
  cases x <;> simp [Bind.bind, Except.bind]

lemma parseRequiredStr_eq_ok (minLen : ℕ) (j : Option Json) (v : String) :
    parseRequiredStr minLen j = .ok v ↔ j = some (.str v) ∧ minLen ≤ v.length := by
  match j with
  | none => simp [parseRequiredStr]
  | some .null => simp [parseRequiredStr]
  | some (.bool b) => simp [parseRequiredStr]
  | some (.str s) =>
      simp only [parseRequiredStr]
      split <;> rename_i h
      · constructor
        · intro hv
          injection hv with hv
          subst hv
          exact ⟨rfl, h⟩
        · rintro ⟨hj, _⟩
          injection hj with hj
          injection hj with hj
          rw [hj]
      · constructor
        · intro hv
          simp at hv
        · rintro ⟨hj, hlen⟩
          injection hj with hj
          injection hj with hj
          subst hj
          exact absurd hlen h
  | some (.num q) => simp [parseRequiredStr]
  | some (.arr xs) => simp [parseRequiredStr]
  | some (.obj kvs) => simp [parseRequiredStr]

lemma parseOptFloatRange_eq_ok (lo hi : ℚ) (j : Option Json) (r : Option ℚ) :
    parseOptFloatRange lo hi j = .ok r ↔
      (j = none ∧ r = none) ∨ (j = some .null ∧ r = none) ∨
      (∃ q, j = some (.num q) ∧ lo ≤ q ∧ q ≤ hi ∧ r = some q) ∨
      (∃ s q, j = some (.str s) ∧ strToNumber s = some q ∧ lo ≤ q ∧ q ≤ hi
        ∧ r = some q) := by
  match j with
  | none => simp [parseOptFloatRange, eq_comm]
  | some .null => simp [parseOptFloatRange, eq_comm]
  | some (.bool b) => simp [parseOptFloatRange]
  | some (.str s) =>
      cases hs : strToNumber s with
      | none => simp [parseOptFloatRange, hs]
      | some q0 =>
          simp only [parseOptFloatRange, hs]
          split <;> rename_i h <;> simp_all [eq_comm]
  | some (.num q) =>
      simp only [parseOptFloatRange]
      split <;> rename_i h <;> simp_all [eq_comm]
  | some (.arr xs) => simp [parseOptFloatRange]
  | some (.obj kvs) => simp [parseOptFloatRange]

lemma parseOptFloat_eq_ok (j : Option Json) (r : Option ℚ) :
    parseOptFloat j = .ok r ↔
      (j = none ∧ r = none) ∨ (j = some .null ∧ r = none) ∨
      (∃ q, j = some (.num q) ∧ r = some q) ∨
      (∃ s q, j = some (.str s) ∧ strToNumber s = some q ∧ r = some q) := by
  match j with
  | none => simp [parseOptFloat, eq_comm]
  | some .null => simp [parseOptFloat, eq_comm]
  | some (.bool b) => simp [parseOptFloat]
  | some (.str s) =>
      cases hs : strToNumber s with
      | none => simp [parseOptFloat, hs]
      | some q0 => simp [parseOptFloat, hs, eq_comm]
  | some (.num q) => simp [parseOptFloat, eq_comm]
  | some (.arr xs) => simp [parseOptFloat]
  | some (.obj kvs) => simp [parseOptFloat]

lemma parseOptStrDefault_eq_ok (dflt : String) (j : Option Json) (r : Option String) :
    parseOptStrDefault dflt j = .ok r ↔
      (j = none ∧ r = some dflt) ∨ (j = some .null ∧ r = none) ∨
      (∃ s, j = some (.str s) ∧ r = some s) := by
  match j with
  | none => simp [parseOptStrDefault, eq_comm]
  | some .null => simp [parseOptStrDefault, eq_comm]
  | some (.bool b) => simp [parseOptStrDefault]
  | some (.str s) => simp [parseOptStrDefault, eq_comm]
  | some (.num q) => simp [parseOptStrDefault]
  | some (.arr xs) => simp [parseOptStrDefault]
  | some (.obj kvs) => simp [parseOptStrDefault]

lemma parseOptIntRange_eq_ok (lo hi : ℤ) (j : Option Json) (r : Option ℤ) :
    parseOptIntRange lo hi j = .ok r ↔
      (j = none ∧ r = none) ∨ (j = some .null ∧ r = none) ∨
      (∃ q : ℚ, j = some (.num q) ∧ q.den = 1 ∧ lo ≤ q.num ∧ q.num ≤ hi ∧
        r = some q.num) ∨
      (∃ (s : String) (q : ℚ), j = some (.str s) ∧ strToNumber s = some q
        ∧ q.den = 1 ∧ lo ≤ q.num ∧ q.num ≤ hi ∧ r = some q.num) := by
  match j with
  | none => simp [parseOptIntRange, eq_comm]
  | some .null => simp [parseOptIntRange, eq_comm]
  | some (.bool b) => simp [parseOptIntRange]
  | some (.str s) =>
      cases hs : strToNumber s with
      | none => simp [parseOptIntRange, hs]
      | some q0 =>
          simp only [parseOptIntRange, hs]
          split <;> rename_i h <;> simp_all [eq_comm]
  | some (.num q) =>
      simp only [parseOptIntRange]
      split <;> rename_i h <;> simp_all [eq_comm]
  | some (.arr xs) => simp [parseOptIntRange]
  | some (.obj kvs) => simp [parseOptIntRange]

lemma parseOptDict_eq_ok (j : Option Json) (r : Option (List (String × Json))) :
    parseOptDict j = .ok r ↔
      (j = none ∧ r = none) ∨ (j = some .null ∧ r = none) ∨
      (∃ kvs, j = some (.obj kvs) ∧ r = some kvs) := by
  match j with
  | none => simp [parseOptDict, eq_comm]
  | some .null => simp [parseOptDict, eq_comm]
  | some (.bool b) => simp [parseOptDict]
  | some (.str s) => simp [parseOptDict]
  | some (.num q) => simp [parseOptDict]
  | some (.arr xs) => simp [parseOptDict]
  | some (.obj kvs) => simp [parseOptDict, eq_comm]

lemma validateHealthPayload_eq_ok (raw : RawPayload) (p : HealthPayload) :
    validateHealthPayload raw = .ok p ↔
      parseRequiredStr 1 raw.device_id = .ok p.device_id ∧
      parseOptFloatRange 0 100 raw.cpu = .ok p.cpu ∧
      parseOptFloatRange 0 100 raw.ram = .ok p.ram ∧
      parseOptFloat raw.temperature = .ok p.temperature ∧
      parseOptStrDefault "OK" raw.status = .ok p.status ∧
      parseOptIntRange 0 100 raw.health_score = .ok p.health_score ∧
      parseOptDict raw.extra = .ok p.extra := by
  obtain ⟨d, c, r, t, st, hs, ex⟩ := p
  simp only [validateHealthPayload, except_bind_ok, Except.ok.injEq,
    HealthPayload.mk.injEq]
  constructor
  · rintro ⟨a1, h1, a2, h2, a3, h3, a4, h4, a5, h5, a6, h6, a7, h7,
      rfl, rfl, rfl, rfl, rfl, rfl, rfl⟩
    exact ⟨h1, h2, h3, h4, h5, h6, h7⟩
  · rintro ⟨h1, h2, h3, h4, h5, h6, h7⟩
    exact ⟨d, h1, c, h2, r, h3, t, h4, st, h5, hs, h6, ex, h7,
      rfl, rfl, rfl, rfl, rfl, rfl, rfl⟩

lemma require_key_self (cfg : Config) :
    require_key cfg (some cfg.MAKE_API_KEY) = .ok () := by
  simp [require_key]

lemma one_le_length_iff (s : String) : 1 ≤ s.length ↔ s ≠ "" := by
  rw [Nat.one_le_iff_ne_zero]
  constructor
  · intro h hs
    exact h (hs ▸ rfl)
  · intro h hz
    apply h
    cases s with
    | mk data =>
      have hd : data = [] := List.length_eq_zero.mp hz
      subst hd
      rfl

lemma num_eq_iff_intCast (q0 : ℚ) (n : ℤ) (hden : q0.den = 1) :
    q0.num = n ↔ q0 = (n : ℚ) := by
  constructor
  · intro h
    rw [← h]
    exact ((Rat.den_eq_one_iff q0).mp hden).symm
  · intro h
    rw [h, Rat.num_intCast]

lemma validate_rawStrCpu :
    validateHealthPayload rawStrCpu
      = .ok ⟨"rpi-1", some 42, none, none, some "OK", none, none⟩ := by
  have h1 : strToNumber "42" = some 42 := by
    have h0 : strToNumber "42" = some ((42 : ℕ) : ℚ) := rfl
    rw [h0]
    norm_num
  refine (validateHealthPayload_eq_ok rawStrCpu _).mpr
    ⟨rfl, ?_, rfl, rfl, rfl, rfl, rfl⟩
  show parseOptFloatRange 0 100 (some (.str "42")) = .ok (some 42)
  simp only [parseOptFloatRange, h1]
  rw [if_pos (by norm_num)]

lemma report_health_ok (cfg : Config) (raw : RawPayload) (p : HealthPayload)
    (hv : validateHealthPayload raw = .ok p) (t : ℚ) (s : Store) :
    report_health cfg (some cfg.MAKE_API_KEY) raw t s
      = (.ok ⟨true, p.device_id⟩,
         fun id => if id = p.device_id
           then some ⟨setdefault_status (model_dump_exclude_none p), t⟩
           else s id) := by
  simp [report_health, require_key_self, hv]

lemma get_health_fresh (cfg : Config) (s : Store) (id : String) (e : Entry)
    (now : ℚ) (he : s id = some e) (hfresh : ¬ cfg.STALE_SECONDS < now - e.ts) :
    get_health cfg (some cfg.MAKE_API_KEY) id now s = (.ok e.data, s) := by
  simp only [get_health, require_key_self, he]
  rw [if_neg hfresh]

/-- C1 (counterexample): posting a valid payload whose status field is
entirely absent and immediately reading it back yields a record whose
status is "OK" (the pydantic schema default survives the
`exclude_none` dump), not "UNKNOWN" as the claim states. -/
theorem c1_counterexample :
    (get_health defaultConfig (some defaultConfig.MAKE_API_KEY) "rpi-1" 0
        (report_health defaultConfig (some defaultConfig.MAKE_API_KEY)
          rawNoStatus 0 emptyStore).2).1
      = .ok ⟨"rpi-1", none, none, none, some "OK", none, none⟩
    ∧ (some "OK" : Option String) ≠ some "UNKNOWN" := by
  have h1 : validateHealthPayload rawNoStatus
      = .ok ⟨"rpi-1", none, none, none, some "OK", none, none⟩ := rfl
  refine ⟨?_, by decide⟩
  rw [report_health_ok defaultConfig rawNoStatus _ h1 0 emptyStore]
  rw [get_health_fresh defaultConfig _ "rpi-1"
      ⟨setdefault_status (model_dump_exclude_none
        ⟨"rpi-1", none, none, none, some "OK", none, none⟩), 0⟩ 0
      (by simp) (by norm_num [defaultConfig])]
  rfl

/-- C1 (amended): for every valid POST payload, a GET for the same device
id before the staleness window elapses returns the submitted fields
unchanged, with status equal to the submitted string when one was
supplied, "OK" (the schema default) when the status key was omitted
entirely, and "UNKNOWN" (the post-validation fill) when the status key was
supplied explicitly null. -/
theorem c1_roundtrip (cfg : Config) (raw : RawPayload) (p : HealthPayload)
    (hv : validateHealthPayload raw = .ok p) (s : Store) (t now : ℚ)
    (hfresh : now - t ≤ cfg.STALE_SECONDS) :
    get_health cfg (some cfg.MAKE_API_KEY) p.device_id now
        (report_health cfg (some cfg.MAKE_API_KEY) raw t s).2
      = (.ok ⟨p.device_id, p.cpu, p.ram, p.temperature,
          (match p.status with | none => some "UNKNOWN" | some v => some v),
          p.health_score, p.extra⟩,
        (report_health cfg (some cfg.MAKE_API_KEY) raw t s).2)
    ∧ (raw.status = none → p.status = some "OK") := by
  constructor
  · have hlook : (report_health cfg (some cfg.MAKE_API_KEY) raw t s).2 p.device_id
        = some ⟨setdefault_status (model_dump_exclude_none p), t⟩ := by
      rw [report_health_ok cfg raw p hv t s]
      simp
    rw [get_health_fresh cfg _ p.device_id _ now hlook (not_lt.mpr hfresh)]
    cases hst : p.status <;>
      simp [setdefault_status, model_dump_exclude_none, hst]
  · intro h0
    have h5 := ((validateHealthPayload_eq_ok raw p).1 hv).2.2.2.2.1
    rw [h0] at h5
    simp only [parseOptStrDefault, Except.ok.injEq] at h5
    exact h5.symm

/-- C1 witness: the payload with cpu 50 and an explicit null status round
trips to a record with status "UNKNOWN". -/
theorem c1_roundtrip_witness :
    get_health defaultConfig (some defaultConfig.MAKE_API_KEY) "a" 100
        (report_health defaultConfig (some defaultConfig.MAKE_API_KEY)
          rawStatusNull 0 emptyStore).2
      = (.ok ⟨"a", some 50, none, none, some "UNKNOWN", none, none⟩,
        (report_health defaultConfig (some defaultConfig.MAKE_API_KEY)
          rawStatusNull 0 emptyStore).2) :=
  (c1_roundtrip defaultConfig rawStatusNull
    ⟨"a", some 50, none, none, none, none, none⟩ rfl emptyStore 0 100
    (by norm_num [defaultConfig])).1

/-- C2 (counterexample): a POST /device/report with the API-key header
entirely absent and an out-of-range body (cpu = 150) fails with 422 (the
framework's missing-required-header validation error), not 401, so the
claim that an absent header yields 401 is false; the store is unchanged. -/
theorem c2_counterexample :
    report_health defaultConfig none rawBadCpu 0 emptyStore
      = (.error .validationErr, emptyStore)
    ∧ Err.statusCode .validationErr = 422 ∧ (422 : ℕ) ≠ 401 := by
  refine ⟨rfl, rfl, by decide⟩

/-- C2 (amended): a request presenting the API-key header with a value
different from the configured secret fails with 401 on every route before
any validation or storage logic runs — in particular a POST carrying both
a wrong key and an out-of-range body returns 401, not 422, and leaves the
store unchanged; a request with the header absent instead fails with 422,
also before any business logic, likewise leaving the store unchanged. -/
theorem c2_auth_gate (cfg : Config) (v : String) (hv : v ≠ cfg.MAKE_API_KEY)
    (raw : RawPayload) (did : String) (now : ℚ) (s : Store) :
    report_health cfg (some v) raw now s
        = (.error (.unauthorized "Invalid API key"), s)
    ∧ get_health cfg (some v) did now s
        = (.error (.unauthorized "Invalid API key"), s)
    ∧ all_health cfg (some v) s = (.error (.unauthorized "Invalid API key"), s)
    ∧ root cfg (some v) s = (.error (.unauthorized "Invalid API key"), s)
    ∧ report_health cfg none raw now s = (.error .validationErr, s)
    ∧ Err.statusCode (.unauthorized "Invalid API key") = 401 := by
  simp [report_health, get_health, all_health, root, require_key, hv,
    Err.statusCode]

/-- C2 witness: the wrong key "wrong" with the invalid body cpu = 150
yields 401 and an unchanged store. -/
theorem c2_auth_gate_witness :
    report_health defaultConfig (some "wrong") rawBadCpu 0 emptyStore
      = (.error (.unauthorized "Invalid API key"), emptyStore) :=
  (c2_auth_gate defaultConfig "wrong" (by decide) rawBadCpu "x" 0 emptyStore).1

/-- C3: for a stored entry, GET /device/health succeeds when the age
`now - received_at` equals STALE_SECONDS (the stale test is strictly
greater-than, an inclusive bound), and when the age exceeds STALE_SECONDS
it fails with 503 whose detail message contains the Python integer
truncation of the age. -/
theorem c3_staleness (cfg : Config) (s : Store) (id : String) (e : Entry)
    (now : ℚ) (he : s id = some e) :
    (now - e.ts = cfg.STALE_SECONDS →
      (get_health cfg (some cfg.MAKE_API_KEY) id now s).1 = .ok e.data)
    ∧ (cfg.STALE_SECONDS < now - e.ts →
      (get_health cfg (some cfg.MAKE_API_KEY) id now s).1
          = .error (.serviceUnavailable (staleDetail (pyInt (now - e.ts))))
      ∧ (∃ pre post, staleDetail (pyInt (now - e.ts))
          = pre ++ toString (pyInt (now - e.ts)) ++ post)
      ∧ Err.statusCode
          (.serviceUnavailable (staleDetail (pyInt (now - e.ts)))) = 503) := by
  constructor
  · intro hage
    simp only [get_health, require_key_self, he]
    rw [if_neg (by rw [hage]; exact lt_irrefl _)]
  · intro hage
    refine ⟨?_, ⟨"Device data is stale (", "s old)", rfl⟩, rfl⟩
    simp only [get_health, require_key_self, he]
    rw [if_pos hage]

/-- C3 witness: with the default 300-second threshold and an entry
received at time 0, the GET succeeds at now = 300 and fails with the
503 stale message at now = 301. -/
theorem c3_staleness_witness :
    (get_health defaultConfig (some defaultConfig.MAKE_API_KEY) "rpi-1" 300
        storeEx).1 = .ok entryEx.data
    ∧ (get_health defaultConfig (some defaultConfig.MAKE_API_KEY) "rpi-1" 301
        storeEx).1
      = .error (.serviceUnavailable (staleDetail (pyInt (301 - entryEx.ts)))) := by
  constructor
  · exact (c3_staleness defaultConfig storeEx "rpi-1" entryEx 300 rfl).1
      (by norm_num [entryEx, defaultConfig])
  · exact ((c3_staleness defaultConfig storeEx "rpi-1" entryEx 301 rfl).2
      (by norm_num [entryEx, defaultConfig])).1

/-- C7: for every store and device id with no entry, GET /device/health
fails with 404 and the no-data message, whatever entries exist for other
ids; the store is unchanged. -/
theorem c7_not_found (cfg : Config) (s : Store) (id : String) (now : ℚ)
    (he : s id = none) :
    get_health cfg (some cfg.MAKE_API_KEY) id now s
      = (.error (.notFound "No data yet for this device_id"), s)
    ∧ Err.statusCode (.notFound "No data yet for this device_id") = 404 := by
  refine ⟨?_, rfl⟩
  simp only [get_health, require_key_self, he]

/-- C7 witness: the singleton store for "rpi-1" has no entry for "other",
so GET for "other" is 404 even though another device's entry exists. -/
theorem c7_not_found_witness :
    get_health defaultConfig (some defaultConfig.MAKE_API_KEY) "other" 0 storeEx
      = (.error (.notFound "No data yet for this device_id"), storeEx) :=
  (c7_not_found defaultConfig storeEx "other" 0 rfl).1

/-- C10: the read operations GET /, GET /device/health and
GET /devices/health never modify the store: whatever the header, device
id, time and store state — and whatever the outcome, 200, 401, 422, 404
or 503 — each returns the store exactly as it received it. -/
theorem c10_reads_pure (cfg : Config) (hdr : Option String) (s : Store)
    (id : String) (now : ℚ) :
    (root cfg hdr s).2 = s ∧ (get_health cfg hdr id now s).2 = s
    ∧ (all_health cfg hdr s).2 = s := by
  refine ⟨?_, ?_, ?_⟩
  · cases hk : require_key cfg hdr <;> simp [root, hk]
  · cases hk : require_key cfg hdr with
    | error e => simp [get_health, hk]
    | ok u =>
      cases hi : s id with
      | none => simp [get_health, hk, hi]
      | some item =>
        simp only [get_health, hk, hi]
        split <;> rfl
  · cases hk : require_key cfg hdr <;> simp [all_health, hk]

/-- C4: two successful POSTs for the same device id leave a store that is
fully determined by the second payload laid over the original store — no
field of the first payload survives, and no other id is touched; the
function-typed store holds at most one entry per id by construction. -/
theorem c4_overwrite (cfg : Config) (raw1 raw2 : RawPayload)
    (p1 p2 : HealthPayload) (h1 : validateHealthPayload raw1 = .ok p1)
    (h2 : validateHealthPayload raw2 = .ok p2)
    (hid : p2.device_id = p1.device_id) (t1 t2 : ℚ) (s : Store) :
    (report_health cfg (some cfg.MAKE_API_KEY) raw2 t2
        (report_health cfg (some cfg.MAKE_API_KEY) raw1 t1 s).2).2
      = fun id => if id = p2.device_id
          then some ⟨setdefault_status (model_dump_exclude_none p2), t2⟩
          else s id := by
  rw [report_health_ok cfg raw1 p1 h1 t1 s]
  rw [report_health_ok cfg raw2 p2 h2 t2 _]
  funext id
  by_cases hcase : id = p2.device_id
  · simp [hcase]
  · have hcase1 : id ≠ p1.device_id := fun h => hcase (h.trans hid.symm)
    simp [hcase, hcase1]

/-- C4 witness: posting cpu and ram, then posting a bare device_id for the
same id, leaves a record with no cpu and no ram — the first payload is
fully discarded. -/
theorem c4_overwrite_witness :
    (report_health defaultConfig (some defaultConfig.MAKE_API_KEY) rawNoStatus 5
        (report_health defaultConfig (some defaultConfig.MAKE_API_KEY) rawCpu 0
          emptyStore).2).2
      = fun id => if id = "rpi-1"
          then some ⟨⟨"rpi-1", none, none, none, some "OK", none, none⟩, 5⟩
          else emptyStore id :=
  c4_overwrite defaultConfig rawCpu rawNoStatus
    ⟨"rpi-1", some 42, some 60, none, some "OK", none, none⟩
    ⟨"rpi-1", none, none, none, some "OK", none, none⟩ rfl rfl rfl 0 5 emptyStore

/-- C5 (counterexample): the payload supplying cpu as the JSON string
"42" validates (lax numeric-string coercion) and its stored record maps
the cpu key to the number 42, yet the caller never submitted cpu as the
number 42 — the stored value is the coerced number, not exactly the
submitted value. -/
theorem c5_counterexample :
    validateHealthPayload rawStrCpu
      = .ok ⟨"rpi-1", some 42, none, none, some "OK", none, none⟩
    ∧ (setdefault_status (model_dump_exclude_none
        ⟨"rpi-1", some 42, none, none, some "OK", none, none⟩)).cpu = some 42
    ∧ rawStrCpu.cpu ≠ some (.num 42) := by
  refine ⟨validate_rawStrCpu, rfl, ?_⟩
  intro h
  injection h with h
  exact Json.noConfusion h

/-- C5 (amended): the stored record built from a valid payload contains a
key other than status exactly when the caller supplied that field with a
non-absent, non-null value; the key maps to the submitted value, where a
numeric string submitted for a numeric field is stored as the number it
denotes (pydantic lax coercion); absent and null optional fields never
appear in the record. -/
theorem c5_stored_fields (raw : RawPayload) (p : HealthPayload)
    (hv : validateHealthPayload raw = .ok p) :
    (setdefault_status (model_dump_exclude_none p)).device_id = p.device_id
    ∧ raw.device_id = some (.str p.device_id)
    ∧ (∀ q : ℚ, (setdefault_status (model_dump_exclude_none p)).cpu = some q
        ↔ (raw.cpu = some (.num q)
           ∨ ∃ s, raw.cpu = some (.str s) ∧ strToNumber s = some q))
    ∧ (∀ q : ℚ, (setdefault_status (model_dump_exclude_none p)).ram = some q
        ↔ (raw.ram = some (.num q)
           ∨ ∃ s, raw.ram = some (.str s) ∧ strToNumber s = some q))
    ∧ (∀ q : ℚ,
        (setdefault_status (model_dump_exclude_none p)).temperature = some q
        ↔ (raw.temperature = some (.num q)
           ∨ ∃ s, raw.temperature = some (.str s) ∧ strToNumber s = some q))
    ∧ (∀ n : ℤ,
        (setdefault_status (model_dump_exclude_none p)).health_score = some n
        ↔ (raw.health_score = some (.num (n : ℚ))
           ∨ ∃ s, raw.health_score = some (.str s)
               ∧ strToNumber s = some ((n : ℤ) : ℚ)))
    ∧ (∀ kvs, (setdefault_status (model_dump_exclude_none p)).extra = some kvs
        ↔ raw.extra = some (.obj kvs)) := by
  obtain ⟨hd, hcpu, hram, htemp, hst, hhs, hex⟩ :=
    (validateHealthPayload_eq_ok raw p).1 hv
  refine ⟨rfl, ((parseRequiredStr_eq_ok 1 raw.device_id p.device_id).1 hd).1,
    ?_, ?_, ?_, ?_, ?_⟩
  · intro q
    show p.cpu = some q ↔ (raw.cpu = some (.num q)
        ∨ ∃ s, raw.cpu = some (.str s) ∧ strToNumber s = some q)
    rcases (parseOptFloatRange_eq_ok 0 100 raw.cpu p.cpu).1 hcpu with
      ⟨hj, hr⟩ | ⟨hj, hr⟩ | ⟨q0, hj, _, _, hr⟩ | ⟨s0, q0, hj, hsn, _, _, hr⟩
    · rw [hj, hr]; simp
    · rw [hj, hr]; simp
    · rw [hj, hr]; simp
    · rw [hj, hr]; simp [hsn]
  · intro q
    show p.ram = some q ↔ (raw.ram = some (.num q)
        ∨ ∃ s, raw.ram = some (.str s) ∧ strToNumber s = some q)
    rcases (parseOptFloatRange_eq_ok 0 100 raw.ram p.ram).1 hram with
      ⟨hj, hr⟩ | ⟨hj, hr⟩ | ⟨q0, hj, _, _, hr⟩ | ⟨s0, q0, hj, hsn, _, _, hr⟩
    · rw [hj, hr]; simp
    · rw [hj, hr]; simp
    · rw [hj, hr]; simp
    · rw [hj, hr]; simp [hsn]
  · intro q
    show p.temperature = some q ↔ (raw.temperature = some (.num q)
        ∨ ∃ s, raw.temperature = some (.str s) ∧ strToNumber s = some q)
    rcases (parseOptFloat_eq_ok raw.temperature p.temperature).1 htemp with
      ⟨hj, hr⟩ | ⟨hj, hr⟩ | ⟨q0, hj, hr⟩ | ⟨s0, q0, hj, hsn, hr⟩
    · rw [hj, hr]; simp
    · rw [hj, hr]; simp
    · rw [hj, hr]; simp
    · rw [hj, hr]; simp [hsn]
  · intro n
    show p.health_score = some n ↔ (raw.health_score = some (.num (n : ℚ))
        ∨ ∃ s, raw.health_score = some (.str s)
            ∧ strToNumber s = some ((n : ℤ) : ℚ))
    rcases (parseOptIntRange_eq_ok 0 100 raw.health_score p.health_score).1 hhs
      with ⟨hj, hr⟩ | ⟨hj, hr⟩ | ⟨q0, hj, hden, _, _, hr⟩
        | ⟨s0, q0, hj, hsn, hden, _, _, hr⟩
    · rw [hj, hr]; simp
    · rw [hj, hr]; simp
    · rw [hj, hr]
      simp [eq_comm]
      exact ⟨fun h => (num_eq_iff_intCast q0 n hden).mp h.symm,
        fun h => ((num_eq_iff_intCast q0 n hden).mpr h).symm⟩
    · rw [hj, hr]
      simp [hsn, eq_comm]
      exact ⟨fun h => (num_eq_iff_intCast q0 n hden).mp h.symm,
        fun h => ((num_eq_iff_intCast q0 n hden).mpr h).symm⟩
  · intro kvs
    show p.extra = some kvs ↔ raw.extra = some (.obj kvs)
    rcases (parseOptDict_eq_ok raw.extra p.extra).1 hex with
      ⟨hj, hr⟩ | ⟨hj, hr⟩ | ⟨k0, hj, hr⟩ <;> rw [hj, hr] <;> simp

/-- C5 witness: for the cpu-and-ram payload, the stored cpu key holds 42
exactly because the caller submitted cpu = 42 (as a number or a numeric
string). -/
theorem c5_stored_fields_witness :
    (setdefault_status (model_dump_exclude_none
        ⟨"rpi-1", some 42, some 60, none, some "OK", none, none⟩)).cpu = some 42
    ↔ (rawCpu.cpu = some (.num 42)
        ∨ ∃ s, rawCpu.cpu = some (.str s) ∧ strToNumber s = some 42) :=
  (c5_stored_fields rawCpu
    ⟨"rpi-1", some 42, some 60, none, some "OK", none, none⟩ rfl).2.2.1 42

/-- C6: GET /devices/health returns the mapping carrying exactly the
stored entries' field mappings keyed by device id, with no staleness
filtering — an entry old enough that GET /device/health rejects it with
503 still appears in the result. -/
theorem c6_all_devices (cfg : Config) (s : Store) (id : String) (e : Entry)
    (now : ℚ) (he : s id = some e)
    (hstale : cfg.STALE_SECONDS < now - e.ts) :
    (all_health cfg (some cfg.MAKE_API_KEY) s).1
        = .ok (fun k => (s k).map Entry.data)
    ∧ (s id).map Entry.data = some e.data
    ∧ (get_health cfg (some cfg.MAKE_API_KEY) id now s).1
        = .error (.serviceUnavailable (staleDetail (pyInt (now - e.ts)))) := by
  refine ⟨by simp [all_health, require_key_self], by rw [he]; rfl, ?_⟩
  simp only [get_health, require_key_self, he]
  rw [if_pos hstale]

/-- C6 witness: the singleton store's "rpi-1" entry is stale at now = 301
(threshold 300), GET /device/health rejects it with 503, yet
GET /devices/health still lists it. -/
theorem c6_all_devices_witness :
    (all_health defaultConfig (some defaultConfig.MAKE_API_KEY) storeEx).1
        = .ok (fun k => (storeEx k).map Entry.data)
    ∧ (storeEx "rpi-1").map Entry.data = some entryEx.data
    ∧ (get_health defaultConfig (some defaultConfig.MAKE_API_KEY) "rpi-1" 301
        storeEx).1
      = .error (.serviceUnavailable (staleDetail (pyInt (301 - entryEx.ts)))) :=
  c6_all_devices defaultConfig storeEx "rpi-1" entryEx 301 rfl
    (by norm_num [entryEx, defaultConfig])

/-- C8 (counterexample): a POST supplying cpu as the JSON string "42" — a
wrong-typed value for the declared float field — is accepted by validation
and stored (200, not 422), because pydantic v2 lax mode coerces numeric
strings; so it is not the case that every wrong-typed value fails. -/
theorem c8_counterexample :
    validateHealthPayload rawStrCpu
      = .ok ⟨"rpi-1", some 42, none, none, some "OK", none, none⟩
    ∧ report_health defaultConfig (some defaultConfig.MAKE_API_KEY) rawStrCpu 0
        emptyStore
      = (.ok ⟨true, "rpi-1"⟩,
         fun id => if id = "rpi-1"
           then some ⟨⟨"rpi-1", some 42, none, none, some "OK", none, none⟩, 0⟩
           else emptyStore id) := by
  refine ⟨validate_rawStrCpu, ?_⟩
  rw [report_health_ok defaultConfig rawStrCpu
      ⟨"rpi-1", some 42, none, none, some "OK", none, none⟩ validate_rawStrCpu 0
      emptyStore]
  rfl

/-- C8 (amended): POST /device/report accepts a payload exactly when
device_id is a non-empty string and each optional field is absent, null,
or of the declared shape after pydantic lax coercion: cpu and ram a number
or numeric string whose value lies in the closed range 0 to 100,
temperature a number or numeric string, status a string, health_score a
number or numeric string with integral value in 0 to 100, extra an
object; any other value fails validation, and a payload failing
validation yields 422 with the store left unchanged. -/
theorem c8_validation (raw : RawPayload) :
    ((∃ p, validateHealthPayload raw = .ok p) ↔
      ((∃ sid, raw.device_id = some (.str sid) ∧ sid ≠ "")
       ∧ (raw.cpu = none ∨ raw.cpu = some .null
            ∨ (∃ q : ℚ, raw.cpu = some (.num q) ∧ 0 ≤ q ∧ q ≤ 100)
            ∨ (∃ (s : String) (q : ℚ), raw.cpu = some (.str s)
                ∧ strToNumber s = some q ∧ 0 ≤ q ∧ q ≤ 100))
       ∧ (raw.ram = none ∨ raw.ram = some .null
            ∨ (∃ q : ℚ, raw.ram = some (.num q) ∧ 0 ≤ q ∧ q ≤ 100)
            ∨ (∃ (s : String) (q : ℚ), raw.ram = some (.str s)
                ∧ strToNumber s = some q ∧ 0 ≤ q ∧ q ≤ 100))
       ∧ (raw.temperature = none ∨ raw.temperature = some .null
            ∨ (∃ q : ℚ, raw.temperature = some (.num q))
            ∨ (∃ (s : String) (q : ℚ), raw.temperature = some (.str s)
                ∧ strToNumber s = some q))
       ∧ (raw.status = none ∨ raw.status = some .null
            ∨ ∃ v, raw.status = some (.str v))
       ∧ (raw.health_score = none ∨ raw.health_score = some .null
            ∨ (∃ q : ℚ, raw.health_score = some (.num q) ∧ q.den = 1
                ∧ 0 ≤ q.num ∧ q.num ≤ 100)
            ∨ (∃ (s : String) (q : ℚ), raw.health_score = some (.str s)
                ∧ strToNumber s = some q ∧ q.den = 1
                ∧ 0 ≤ q.num ∧ q.num ≤ 100))
       ∧ (raw.extra = none ∨ raw.extra = some .null
            ∨ ∃ kvs, raw.extra = some (.obj kvs))))
    ∧ (validateHealthPayload raw = .error () →
        ∀ (cfg : Config) (now : ℚ) (s : Store),
        report_health cfg (some cfg.MAKE_API_KEY) raw now s
          = (.error .validationErr, s)) := by
  constructor
  · constructor
    · rintro ⟨p, hp⟩
      obtain ⟨hd, hcpu, hram, htemp, hst, hhs, hex⟩ :=
        (validateHealthPayload_eq_ok raw p).1 hp
      obtain ⟨hdj, hdlen⟩ := (parseRequiredStr_eq_ok 1 raw.device_id p.device_id).1 hd
      refine ⟨⟨p.device_id, hdj, (one_le_length_iff p.device_id).mp hdlen⟩,
        ?_, ?_, ?_, ?_, ?_, ?_⟩
      · rcases (parseOptFloatRange_eq_ok 0 100 raw.cpu p.cpu).1 hcpu with
          ⟨hj, _⟩ | ⟨hj, _⟩ | ⟨q, hj, hq1, hq2, _⟩ | ⟨s0, q, hj, hsn, hq1, hq2, _⟩
        exacts [.inl hj, .inr (.inl hj), .inr (.inr (.inl ⟨q, hj, hq1, hq2⟩)),
          .inr (.inr (.inr ⟨s0, q, hj, hsn, hq1, hq2⟩))]
      · rcases (parseOptFloatRange_eq_ok 0 100 raw.ram p.ram).1 hram with
          ⟨hj, _⟩ | ⟨hj, _⟩ | ⟨q, hj, hq1, hq2, _⟩ | ⟨s0, q, hj, hsn, hq1, hq2, _⟩
        exacts [.inl hj, .inr (.inl hj), .inr (.inr (.inl ⟨q, hj, hq1, hq2⟩)),
          .inr (.inr (.inr ⟨s0, q, hj, hsn, hq1, hq2⟩))]
      · rcases (parseOptFloat_eq_ok raw.temperature p.temperature).1 htemp with
          ⟨hj, _⟩ | ⟨hj, _⟩ | ⟨q, hj, _⟩ | ⟨s0, q, hj, hsn, _⟩
        exacts [.inl hj, .inr (.inl hj), .inr (.inr (.inl ⟨q, hj⟩)),
          .inr (.inr (.inr ⟨s0, q, hj, hsn⟩))]
      · rcases (parseOptStrDefault_eq_ok "OK" raw.status p.status).1 hst with
          ⟨hj, _⟩ | ⟨hj, _⟩ | ⟨v, hj, _⟩
        exacts [.inl hj, .inr (.inl hj), .inr (.inr ⟨v, hj⟩)]
      · rcases (parseOptIntRange_eq_ok 0 100 raw.health_score p.health_score).1
          hhs with ⟨hj, _⟩ | ⟨hj, _⟩ | ⟨q, hj, hden, hq1, hq2, _⟩
            | ⟨s0, q, hj, hsn, hden, hq1, hq2, _⟩
        exacts [.inl hj, .inr (.inl hj),
          .inr (.inr (.inl ⟨q, hj, hden, hq1, hq2⟩)),
          .inr (.inr (.inr ⟨s0, q, hj, hsn, hden, hq1, hq2⟩))]
      · rcases (parseOptDict_eq_ok raw.extra p.extra).1 hex with
          ⟨hj, _⟩ | ⟨hj, _⟩ | ⟨kvs, hj, _⟩
        exacts [.inl hj, .inr (.inl hj), .inr (.inr ⟨kvs, hj⟩)]
    · rintro ⟨⟨sid, hdj, hsne⟩, hc, hr, ht, hs, hh, he⟩
      obtain ⟨c, hc0⟩ : ∃ c, parseOptFloatRange 0 100 raw.cpu = .ok c := by
        rcases hc with h | h | ⟨q, hj, h1, h2⟩ | ⟨s0, q, hj, hsn, h1, h2⟩
        · exact ⟨none, (parseOptFloatRange_eq_ok 0 100 raw.cpu none).mpr
            (.inl ⟨h, rfl⟩)⟩
        · exact ⟨none, (parseOptFloatRange_eq_ok 0 100 raw.cpu none).mpr
            (.inr (.inl ⟨h, rfl⟩))⟩
        · exact ⟨some q, (parseOptFloatRange_eq_ok 0 100 raw.cpu (some q)).mpr
            (.inr (.inr (.inl ⟨q, hj, h1, h2, rfl⟩)))⟩
        · exact ⟨some q, (parseOptFloatRange_eq_ok 0 100 raw.cpu (some q)).mpr
            (.inr (.inr (.inr ⟨s0, q, hj, hsn, h1, h2, rfl⟩)))⟩
      obtain ⟨r, hr0⟩ : ∃ r, parseOptFloatRange 0 100 raw.ram = .ok r := by
        rcases hr with h | h | ⟨q, hj, h1, h2⟩ | ⟨s0, q, hj, hsn, h1, h2⟩
        · exact ⟨none, (parseOptFloatRange_eq_ok 0 100 raw.ram none).mpr
            (.inl ⟨h, rfl⟩)⟩
        · exact ⟨none, (parseOptFloatRange_eq_ok 0 100 raw.ram none).mpr
            (.inr (.inl ⟨h, rfl⟩))⟩
        · exact ⟨some q, (parseOptFloatRange_eq_ok 0 100 raw.ram (some q)).mpr
            (.inr (.inr (.inl ⟨q, hj, h1, h2, rfl⟩)))⟩
        · exact ⟨some q, (parseOptFloatRange_eq_ok 0 100 raw.ram (some q)).mpr
            (.inr (.inr (.inr ⟨s0, q, hj, hsn, h1, h2, rfl⟩)))⟩
      obtain ⟨t, ht0⟩ : ∃ t, parseOptFloat raw.temperature = .ok t := by
        rcases ht with h | h | ⟨q, hj⟩ | ⟨s0, q, hj, hsn⟩
        · exact ⟨none, (parseOptFloat_eq_ok raw.temperature none).mpr
            (.inl ⟨h, rfl⟩)⟩
        · exact ⟨none, (parseOptFloat_eq_ok raw.temperature none).mpr
            (.inr (.inl ⟨h, rfl⟩))⟩
        · exact ⟨some q, (parseOptFloat_eq_ok raw.temperature (some q)).mpr
            (.inr (.inr (.inl ⟨q, hj, rfl⟩)))⟩
        · exact ⟨some q, (parseOptFloat_eq_ok raw.temperature (some q)).mpr
            (.inr (.inr (.inr ⟨s0, q, hj, hsn, rfl⟩)))⟩
      obtain ⟨st, hst0⟩ : ∃ st, parseOptStrDefault "OK" raw.status = .ok st := by
        rcases hs with h | h | ⟨v, hj⟩
        · exact ⟨some "OK", (parseOptStrDefault_eq_ok "OK" raw.status
            (some "OK")).mpr (.inl ⟨h, rfl⟩)⟩
        · exact ⟨none, (parseOptStrDefault_eq_ok "OK" raw.status none).mpr
            (.inr (.inl ⟨h, rfl⟩))⟩
        · exact ⟨some v, (parseOptStrDefault_eq_ok "OK" raw.status (some v)).mpr
            (.inr (.inr ⟨v, hj, rfl⟩))⟩
      obtain ⟨hsc, hh0⟩ : ∃ hsc, parseOptIntRange 0 100 raw.health_score
          = .ok hsc := by
        rcases hh with h | h | ⟨q, hj, hden, h1, h2⟩ | ⟨s0, q, hj, hsn, hden, h1, h2⟩
        · exact ⟨none, (parseOptIntRange_eq_ok 0 100 raw.health_score none).mpr
            (.inl ⟨h, rfl⟩)⟩
        · exact ⟨none, (parseOptIntRange_eq_ok 0 100 raw.health_score none).mpr
            (.inr (.inl ⟨h, rfl⟩))⟩
        · exact ⟨some q.num, (parseOptIntRange_eq_ok 0 100 raw.health_score
            (some q.num)).mpr (.inr (.inr (.inl ⟨q, hj, hden, h1, h2, rfl⟩)))⟩
        · exact ⟨some q.num, (parseOptIntRange_eq_ok 0 100 raw.health_score
            (some q.num)).mpr
            (.inr (.inr (.inr ⟨s0, q, hj, hsn, hden, h1, h2, rfl⟩)))⟩
      obtain ⟨ex, he0⟩ : ∃ ex, parseOptDict raw.extra = .ok ex := by
        rcases he with h | h | ⟨kvs, hj⟩
        · exact ⟨none, (parseOptDict_eq_ok raw.extra none).mpr (.inl ⟨h, rfl⟩)⟩
        · exact ⟨none, (parseOptDict_eq_ok raw.extra none).mpr
            (.inr (.inl ⟨h, rfl⟩))⟩
        · exact ⟨some kvs, (parseOptDict_eq_ok raw.extra (some kvs)).mpr
            (.inr (.inr ⟨kvs, hj, rfl⟩))⟩
      refine ⟨⟨sid, c, r, t, st, hsc, ex⟩,
        (validateHealthPayload_eq_ok raw _).mpr
          ⟨?_, hc0, hr0, ht0, hst0, hh0, he0⟩⟩
      exact (parseRequiredStr_eq_ok 1 raw.device_id sid).mpr
        ⟨hdj, (one_le_length_iff sid).mpr hsne⟩
  · intro herr cfg now s
    simp [report_health, require_key_self, herr]

/-- C8 witness: the out-of-range payload cpu = 150 fails validation, and
the POST for it returns 422 leaving the store unchanged. -/
theorem c8_validation_witness :
    report_health defaultConfig (some defaultConfig.MAKE_API_KEY) rawBadCpu 0
        emptyStore
      = (.error .validationErr, emptyStore) :=
  (c8_validation rawBadCpu).2 rfl defaultConfig 0 emptyStore

/-- C9: for a valid POST payload, the stored record (the one report_health
writes under the device id) strips every explicitly-null optional field
exactly like an absent one, and the status fill-in then runs: an explicit
null status is stored as "UNKNOWN", while an absent status key was already
defaulted to "OK" by the schema branch and is stored as such. -/
theorem c9_null_like_absent (cfg : Config) (raw : RawPayload)
    (p : HealthPayload) (hv : validateHealthPayload raw = .ok p)
    (now : ℚ) (s : Store) :
    (report_health cfg (some cfg.MAKE_API_KEY) raw now s).2 p.device_id
        = some ⟨setdefault_status (model_dump_exclude_none p), now⟩
    ∧ (raw.status = some .null →
        (setdefault_status (model_dump_exclude_none p)).status = some "UNKNOWN")
    ∧ (raw.status = none →
        (setdefault_status (model_dump_exclude_none p)).status = some "OK")
    ∧ (raw.cpu = some .null →
        (setdefault_status (model_dump_exclude_none p)).cpu = none)
    ∧ (raw.ram = some .null →
        (setdefault_status (model_dump_exclude_none p)).ram = none)
    ∧ (raw.temperature = some .null →
        (setdefault_status (model_dump_exclude_none p)).temperature = none)
    ∧ (raw.health_score = some .null →
        (setdefault_status (model_dump_exclude_none p)).health_score = none)
    ∧ (raw.extra = some .null →
        (setdefault_status (model_dump_exclude_none p)).extra = none) := by
  obtain ⟨hd, hcpu, hram, htemp, hst, hhs, hex⟩ :=
    (validateHealthPayload_eq_ok raw p).1 hv
  refine ⟨?_, ?_, ?_, ?_, ?_, ?_, ?_, ?_⟩
  · rw [report_health_ok cfg raw p hv now s]
    simp
  · intro h0
    rw [h0] at hst
    simp only [parseOptStrDefault] at hst
    injection hst with hst
    show (match p.status with | none => some "UNKNOWN" | some v => some v)
      = some "UNKNOWN"
    rw [← hst]
  · intro h0
    rw [h0] at hst
    simp only [parseOptStrDefault] at hst
    injection hst with hst
    show (match p.status with | none => some "UNKNOWN" | some v => some v)
      = some "OK"
    rw [← hst]
  · intro h0
    rcases (parseOptFloatRange_eq_ok 0 100 raw.cpu p.cpu).1 hcpu with
      ⟨hj, hr⟩ | ⟨hj, hr⟩ | ⟨q, hj, _, _, hr⟩ | ⟨s0, q, hj, _, _, _, hr⟩
    · rw [h0] at hj
      exact Option.noConfusion hj
    · exact hr
    · rw [h0] at hj
      injection hj with hj
      exact Json.noConfusion hj
    · rw [h0] at hj
      injection hj with hj
      exact Json.noConfusion hj
  · intro h0
    rcases (parseOptFloatRange_eq_ok 0 100 raw.ram p.ram).1 hram with
      ⟨hj, hr⟩ | ⟨hj, hr⟩ | ⟨q, hj, _, _, hr⟩ | ⟨s0, q, hj, _, _, _, hr⟩
    · rw [h0] at hj
      exact Option.noConfusion hj
    · exact hr
    · rw [h0] at hj
      injection hj with hj
      exact Json.noConfusion hj
    · rw [h0] at hj
      injection hj with hj
      exact Json.noConfusion hj
  · intro h0
    rcases (parseOptFloat_eq_ok raw.temperature p.temperature).1 htemp with
      ⟨hj, hr⟩ | ⟨hj, hr⟩ | ⟨q, hj, hr⟩ | ⟨s0, q, hj, _, hr⟩
    · rw [h0] at hj
      exact Option.noConfusion hj
    · exact hr
    · rw [h0] at hj
      injection hj with hj
      exact Json.noConfusion hj
    · rw [h0] at hj
      injection hj with hj
      exact Json.noConfusion hj
  · intro h0
    rcases (parseOptIntRange_eq_ok 0 100 raw.health_score p.health_score).1
      hhs with ⟨hj, hr⟩ | ⟨hj, hr⟩ | ⟨q, hj, _, _, _, hr⟩
        | ⟨s0, q, hj, _, _, _, _, hr⟩
    · rw [h0] at hj
      exact Option.noConfusion hj
    · exact hr
    · rw [h0] at hj
      injection hj with hj
      exact Json.noConfusion hj
    · rw [h0] at hj
      injection hj with hj
      exact Json.noConfusion hj
  · intro h0
    rcases (parseOptDict_eq_ok raw.extra p.extra).1 hex with
      ⟨hj, hr⟩ | ⟨hj, hr⟩ | ⟨kvs, hj, hr⟩
    · rw [h0] at hj
      exact Option.noConfusion hj
    · exact hr
    · rw [h0] at hj
      injection hj with hj
      exact Json.noConfusion hj

/-- C9 witness: the payload with an explicit null status stores status
"UNKNOWN". -/
theorem c9_null_like_absent_witness :
    (setdefault_status (model_dump_exclude_none
        ⟨"a", some 50, none, none, none, none, none⟩)).status = some "UNKNOWN" :=
  (c9_null_like_absent defaultConfig rawStatusNull
    ⟨"a", some 50, none, none, none, none, none⟩ rfl 0 emptyStore).2.1 rfl

end NetworkMonitor
